import Mathlib

/-!
Shallow embedding of the POS-Sari sale/credit-ledger core:
the checkout handler (`handleCheckout` in the POS page), the payment
recorder (`handlePayment` in the Customers page), the role-bootstrap
RPC (`ensure_my_role`), the stock-deduction trigger
(`deduct_stock_on_sale`), the per-owner row-level-security policies of
the isolation migrations, and the product-PIN functions
(`handle_new_user`, `verify_my_product_pin`).

Money values (NUMERIC(10,2) columns, JS numbers) have exactly two
fraction digits, so they are modelled as scaled integers (`Int`);
row ids (UUIDs) and principal ids as `Nat`.
-/

namespace POSSari

/-- `payment_type` column: `cash` or `utang` (credit). -/
inductive PaymentType
  | cash
  | utang
deriving DecidableEq, Repr

/-- `utang_ledger.type` column: `credit` or `payment`. -/
inductive LedgerType
  | credit
  | payment
deriving DecidableEq, Repr

/-- `app_role` enum: `admin` or `cashier`. -/
inductive AppRole
  | admin
  | cashier
deriving DecidableEq, Repr

/-- A row of `public.products` (fields used by the core). -/
structure Product where
  id : Nat
  name : String
  selling_price : Int
  stock_qty : Int
  owner_user_id : Nat
deriving DecidableEq, Repr

/-- A row of `public.customers` (fields used by the core). -/
structure Customer where
  id : Nat
  full_name : String
  owner_user_id : Nat
deriving DecidableEq, Repr

/-- A row of `public.sales`. -/
structure Sale where
  id : Nat
  payment_type : PaymentType
  total : Int
  cash_received : Option Int
  change_amount : Option Int
  customer_id : Option Nat
  cashier_id : Nat
deriving DecidableEq, Repr

/-- A row of `public.sale_items`. -/
structure SaleItem where
  sale_id : Nat
  product_id : Nat
  product_name : String
  quantity : Int
  price : Int
  total : Int
deriving DecidableEq, Repr

/-- A row of `public.utang_ledger`. -/
structure LedgerEntry where
  customer_id : Nat
  sale_id : Option Nat
  amount : Int
  type : LedgerType
  created_by : Nat
  owner_user_id : Nat
deriving DecidableEq, Repr

/-- A row of `public.user_roles`. -/
structure RoleAssignment where
  user_id : Nat
  role : AppRole
deriving DecidableEq, Repr

/-- A row of `public.profiles` (fields used by the PIN gate). -/
structure Profile where
  user_id : Nat
  display_name : String
  product_pin_hash : Option String
deriving DecidableEq, Repr

/-- A client-side cart line (`CartItem` in the POS page): a copy of the
product as fetched, plus the chosen quantity. -/
structure CartItem where
  product : Product
  quantity : Int
deriving DecidableEq, Repr

/-- The database state touched by the core. `nextId` models the id
generator for fresh rows. -/
structure DB where
  products : List Product
  customers : List Customer
  sales : List Sale
  saleItems : List SaleItem
  ledger : List LedgerEntry
  nextId : Nat
deriving DecidableEq, Repr

/-- `subtotal` in the POS page:
`cart.reduce((sum, c) => sum + c.product.selling_price * c.quantity, 0)`. -/
def subtotalOf (cart : List CartItem) : Int :=
  cart.foldl (fun s c => s + c.product.selling_price * (c.quantity : Int)) 0

/-- JavaScript `Math.max` on two numbers. -/
def jsMax (a b : Int) : Int :=
  if a < b then b else a

/-- JavaScript `String.prototype.toLowerCase`, character by character. -/
def jsToLower (s : String) : String :=
  ⟨s.data.map Char.toLower⟩

/-- JavaScript `String.prototype.trim`: drop whitespace from both ends. -/
def jsTrim (s : String) : String :=
  ⟨((s.data.dropWhile Char.isWhitespace).reverse.dropWhile Char.isWhitespace).reverse⟩

/-- The `deduct_stock_on_sale` trigger body:
`UPDATE products SET stock_qty = stock_qty - NEW.quantity WHERE id = NEW.product_id`.
No check against negative stock is performed. -/
def deduct_stock_on_sale (ps : List Product) (item : SaleItem) : List Product :=
  ps.map (fun p =>
    if p.id == item.product_id then
      { p with stock_qty := p.stock_qty - item.quantity }
    else p)

/-- One `sale_items` row insertion together with its `AFTER INSERT`
trigger `on_sale_item_insert` firing `deduct_stock_on_sale`. -/
def insertItemWithTrigger (d : DB) (it : SaleItem) : DB :=
  { d with
    saleItems := d.saleItems ++ [it]
    products := deduct_stock_on_sale d.products it }

/-- The `sale_items` payload built in `handleCheckout`:
snapshot of product id, name and price, `total = price * quantity`. -/
def saleItemOf (saleId : Nat) (c : CartItem) : SaleItem :=
  { sale_id := saleId
    product_id := c.product.id
    product_name := c.product.name
    quantity := c.quantity
    price := c.product.selling_price
    total := c.product.selling_price * (c.quantity : Int) }

/-- The customer-resolution predicate in `handleCheckout`:
`c.full_name.trim().toLowerCase() === normalizedUtangName.toLowerCase()`. -/
def customerNameMatches (normalized : String) (c : Customer) : Bool :=
  jsToLower (jsTrim c.full_name) == jsToLower normalized

/-- Which step of `handleCheckout` the backend fails at, if any.
`fCustomer` = the new-customer insert errors, `fSale` = the sale-header
insert errors, `fItems` = the sale-items insert errors, `fLedger` = the
ledger insert errors (its result is ignored by the code). -/
inductive Fault
  | fnone
  | fCustomer
  | fSale
  | fItems
  | fLedger
deriving DecidableEq, Repr

/-- The observable outcome of a `handleCheckout` call. -/
inductive CheckoutOutcome
  | notStarted
  | insufficientCash
  | missingName
  | customerInsertFailed
  | saleInsertFailed
  | itemsInsertFailed
  | completed (saleId : Nat)
deriving DecidableEq, Repr

/-- The `sales` row built in `handleCheckout`: `total = subtotal`,
cash fields only for cash sales, customer reference only for credit
sales, `cashier_id` = acting principal. -/
def mkSale (saleId : Nat) (uid : Nat) (cart : List CartItem)
    (pt : PaymentType) (cashReceived : Int) (customerId : Option Nat) : Sale :=
  { id := saleId
    payment_type := pt
    total := subtotalOf cart
    cash_received := if pt = PaymentType.cash then some cashReceived else none
    change_amount :=
      if pt = PaymentType.cash then some (jsMax 0 (cashReceived - subtotalOf cart))
      else none
    customer_id := if pt = PaymentType.utang then customerId else none
    cashier_id := uid }

/-- The `utang_ledger` row inserted for a credit sale. -/
def mkCreditEntry (cid : Nat) (saleId : Nat) (subtotal : Int) (uid : Nat) :
    LedgerEntry :=
  { customer_id := cid
    sale_id := some saleId
    amount := subtotal
    type := LedgerType.credit
    created_by := uid
    owner_user_id := uid }

/-- Steps 4-7 of `handleCheckout` once validation and customer
resolution are done: insert the sale header, insert the sale items
(each firing the stock trigger), and for a credit sale insert the
ledger entry — whose error the code ignores. Each failing step
returns immediately, leaving all earlier writes in place. -/
def commitSale (db : DB) (uid : Nat) (cart : List CartItem)
    (pt : PaymentType) (cashReceived : Int) (customerId : Option Nat)
    (fault : Fault) : CheckoutOutcome × DB :=
  if fault = Fault.fSale then (CheckoutOutcome.saleInsertFailed, db)
  else
    let saleId := db.nextId
    let sale := mkSale saleId uid cart pt cashReceived customerId
    let db2 : DB := { db with sales := db.sales ++ [sale], nextId := db.nextId + 1 }
    if fault = Fault.fItems then (CheckoutOutcome.itemsInsertFailed, db2)
    else
      let db3 := (cart.map (saleItemOf saleId)).foldl insertItemWithTrigger db2
      if pt = PaymentType.utang ∧ fault ≠ Fault.fLedger then
        match customerId with
        | some cid =>
            (CheckoutOutcome.completed saleId,
              { db3 with ledger := db3.ledger ++
                [mkCreditEntry cid saleId (subtotalOf cart) uid] })
        | none => (CheckoutOutcome.completed saleId, db3)
      else (CheckoutOutcome.completed saleId, db3)

/-- `handleCheckout` from the POS page: validation, customer
resolution/creation for credit sales, then `commitSale`.
`clientCustomers` is the client's `customers` state, fetched through
the owner-filtered select policy. -/
def handleCheckout (db : DB) (uid : Nat) (cart : List CartItem)
    (pt : PaymentType) (cashReceived : Int) (utangCustomerName : String)
    (clientCustomers : List Customer) (fault : Fault) :
    CheckoutOutcome × DB :=
  if cart = [] then (CheckoutOutcome.notStarted, db)
  else if pt = PaymentType.cash ∧ cashReceived < subtotalOf cart then
    (CheckoutOutcome.insufficientCash, db)
  else if pt = PaymentType.utang ∧ jsTrim utangCustomerName = "" then
    (CheckoutOutcome.missingName, db)
  else
    match pt with
    | PaymentType.cash => commitSale db uid cart PaymentType.cash cashReceived none fault
    | PaymentType.utang =>
      let normalized := jsTrim utangCustomerName
      match clientCustomers.find? (customerNameMatches normalized) with
      | some c => commitSale db uid cart PaymentType.utang cashReceived (some c.id) fault
      | none =>
        if fault = Fault.fCustomer then (CheckoutOutcome.customerInsertFailed, db)
        else
          let cid := db.nextId
          let db1 : DB :=
            { db with
              customers := db.customers ++
                [{ id := cid, full_name := normalized, owner_user_id := uid }]
              nextId := db.nextId + 1 }
          commitSale db1 uid cart PaymentType.utang cashReceived (some cid) fault

/-- One step of the balance accumulation in `fetchCustomers`:
`balances[id] += u.type === 'credit' ? amount : -amount`, restricted to
entries of customer `cid`. -/
def netStep (cid : Nat) (s : Int) (u : LedgerEntry) : Int :=
  if u.customer_id == cid then
    (if u.type = LedgerType.credit then s + u.amount else s - u.amount)
  else s

/-- The signed ledger net for one customer, as accumulated by
`fetchCustomers` in the Customers page. -/
def ledgerNet (entries : List LedgerEntry) (cid : Nat) : Int :=
  entries.foldl (netStep cid) 0

/-- `totalBalance` as displayed by `fetchCustomers`:
`Math.max(0, balances[c.id] || 0)` over the ledger rows visible to the
acting principal (the owner-filtered select policy). -/
def totalBalance (db : DB) (uid : Nat) (cid : Nat) : Int :=
  jsMax 0 (ledgerNet (db.ledger.filter (fun u => u.owner_user_id == uid)) cid)

/-- Outcome of `handlePayment`. -/
inductive PaymentOutcome
  | invalidAmount
  | recorded
deriving DecidableEq, Repr

/-- The `payment` ledger row inserted by `handlePayment`
(`created_by = uid`, owner defaulting to `auth.uid()`). -/
def mkPaymentEntry (cid : Nat) (uid : Nat) (amount : Int) : LedgerEntry :=
  { customer_id := cid
    sale_id := none
    amount := amount
    type := LedgerType.payment
    created_by := uid
    owner_user_id := uid }

/-- `handlePayment` from the Customers page: reject when
`amount <= 0 || amount > selectedCustomer.totalBalance`, else insert
one `payment` ledger row. -/
def handlePayment (db : DB) (uid : Nat) (cid : Nat) (amount : Int) :
    PaymentOutcome × DB :=
  if amount ≤ 0 ∨ totalBalance db uid cid < amount then
    (PaymentOutcome.invalidAmount, db)
  else
    (PaymentOutcome.recorded,
      { db with ledger := db.ledger ++ [mkPaymentEntry cid uid amount] })

/-- The read phase of `ensure_my_role` for an authenticated user:
`SELECT role ... WHERE user_id = u LIMIT 1`, and if absent the
system-wide `EXISTS (... role = 'admin')` check deciding the role to
insert. Returns `none` when the user already has a row (nothing will
be inserted), else `some` of the role about to be inserted. -/
def bootstrapCheck (roles : List RoleAssignment) (u : Nat) : Option AppRole :=
  match roles.find? (fun r => r.user_id == u) with
  | some _ => none
  | none =>
      some (if roles.any (fun r => r.role == AppRole.admin)
            then AppRole.cashier else AppRole.admin)

/-- The write phase of `ensure_my_role`:
`INSERT INTO user_roles ... ON CONFLICT (user_id, role) DO NOTHING`. -/
def bootstrapInsert (roles : List RoleAssignment) (u : Nat) (a : AppRole) :
    List RoleAssignment :=
  if roles.any (fun r => r.user_id == u && r.role == a) then roles
  else roles ++ [{ user_id := u, role := a }]

/-- The `ensure_my_role` RPC run atomically (no interleaving):
unauthenticated callers raise, users with an existing row get it back
unchanged, otherwise the first-admin check decides the inserted role. -/
def ensure_my_role (uid : Option Nat) (roles : List RoleAssignment) :
    Except String (AppRole × List RoleAssignment) :=
  match uid with
  | none => Except.error "Not authenticated"
  | some u =>
    match roles.find? (fun r => r.user_id == u) with
    | some r => Except.ok (r.role, roles)
    | none =>
      let assigned :=
        if roles.any (fun r => r.role == AppRole.admin)
        then AppRole.cashier else AppRole.admin
      Except.ok (assigned, bootstrapInsert roles u assigned)

/-- Row-level-security policies `Users update own products`
(`USING` and `WITH CHECK` both `owner_user_id = auth.uid()`): an
UPDATE statement by `uid` targeting product `pid` with row transform
`f`. Rows not owned by `uid` are not targeted; the statement aborts
(`none`) if an updated row fails the check. -/
def updateProductRLS (db : DB) (uid : Nat) (pid : Nat)
    (f : Product → Product) : Option DB :=
  let targets := db.products.filter (fun p => p.id == pid && p.owner_user_id == uid)
  if targets.all (fun p => (f p).owner_user_id == uid) then
    some { db with products :=
      db.products.map (fun p =>
        if p.id == pid && p.owner_user_id == uid then f p else p) }
  else none

/-- `handle_new_user` (PIN migration): store
`crypt(raw_pin, gen_salt('bf'))` when the signup metadata PIN is
non-empty, else `NULL`. `crypt` is the pgcrypto hash, passed in as an
abstract function of (pin, salt). -/
def handle_new_user (crypt : String → String → String) (salt : String)
    (profiles : List Profile) (uid : Nat) (displayName : String)
    (rawPin : String) : List Profile :=
  profiles ++
    [{ user_id := uid
       display_name := displayName
       product_pin_hash :=
         if rawPin ≠ "" then some (crypt rawPin salt) else none }]

/-- `verify_my_product_pin`: true iff the caller's profile row exists,
its `product_pin_hash` is non-null, and
`product_pin_hash = crypt(submitted_pin, product_pin_hash)`. -/
def verify_my_product_pin (crypt : String → String → String)
    (profiles : List Profile) (uid : Nat) (pin : String) : Bool :=
  profiles.any (fun p =>
    p.user_id == uid &&
    (match p.product_pin_hash with
     | some h => h == crypt pin h
     | none => false))

/-- The PIN gate in the Products page (`handleVerifyPin`): the
session-scoped `pinUnlocked` flag becomes true exactly when the RPC
returns true. -/
def pinGateUnlocks (crypt : String → String → String)
    (profiles : List Profile) (uid : Nat) (pin : String) : Bool :=
  verify_my_product_pin crypt profiles uid pin

/-- Total quantity of product `pid` across the cart (specification-side
measure used to state the stock effect). -/
def soldQty : List CartItem → Nat → Int
  | [], _ => 0
  | c :: cs, pid => (if c.product.id == pid then c.quantity else 0) + soldQty cs pid

/-- The ledger rows a fault-free `commitSale` appends:
one credit entry for a credit sale with a resolved customer, nothing
otherwise (specification-side helper). -/
def ledgerAdditions (pt : PaymentType) (customerId : Option Nat)
    (saleId : Nat) (subtotal : Int) (uid : Nat) : List LedgerEntry :=
  match pt, customerId with
  | PaymentType.utang, some cid => [mkCreditEntry cid saleId subtotal uid]
  | _, _ => []

/-- Demo catalog row A (₱14, five in stock, owned by principal 7). -/
def demoA : Product :=
  { id := 10, name := "A", selling_price := 14, stock_qty := 5, owner_user_id := 7 }

/-- Demo catalog row B (₱62, three in stock, owned by principal 7). -/
def demoB : Product :=
  { id := 11, name := "B", selling_price := 62, stock_qty := 3, owner_user_id := 7 }

/-- Demo catalog row with a single unit in stock. -/
def demoLow : Product :=
  { id := 12, name := "L", selling_price := 10, stock_qty := 1, owner_user_id := 7 }

/-- Demo database: catalog rows A and B, nothing else. -/
def demoDB : DB :=
  { products := [demoA, demoB], customers := [], sales := [],
    saleItems := [], ledger := [], nextId := 1 }

/-- Demo cart: two of A and one of B (the spec's worked scenario). -/
def demoCart : List CartItem :=
  [{ product := demoA, quantity := 2 }, { product := demoB, quantity := 1 }]

/-- Demo database holding only the low-stock row. -/
def demoLowDB : DB :=
  { products := [demoLow], customers := [], sales := [],
    saleItems := [], ledger := [], nextId := 1 }

/-- Demo cart asking for two units of the single-unit row. -/
def demoLowCart : List CartItem :=
  [{ product := demoLow, quantity := 2 }]

/-- Database with one customer owing ₱90 to principal 7. -/
def demoPayDB : DB :=
  { products := [], customers := [{ id := 5, full_name := "Maria Santos", owner_user_id := 7 }],
    sales := [], saleItems := [],
    ledger := [{ customer_id := 5, sale_id := some 2, amount := 90,
                 type := LedgerType.credit, created_by := 7, owner_user_id := 7 }],
    nextId := 6 }

/-- The database after the demo cash checkout followed by the owner
editing product A's price to ₱99 (used as an update-frame witness). -/
def demoEditedDB : DB :=
  { products := [{ id := 10, name := "A", selling_price := 99, stock_qty := 3, owner_user_id := 7 },
                 { id := 11, name := "B", selling_price := 62, stock_qty := 2, owner_user_id := 7 }]
    customers := []
    sales := [{ id := 1, payment_type := PaymentType.cash, total := 90,
                cash_received := some 100, change_amount := some 10,
                customer_id := none, cashier_id := 7 }]
    saleItems := [{ sale_id := 1, product_id := 10, product_name := "A",
                    quantity := 2, price := 14, total := 28 },
                  { sale_id := 1, product_id := 11, product_name := "B",
                    quantity := 1, price := 62, total := 62 }]
    ledger := []
    nextId := 2 }

section Lemmas

/-- Folding sale-item inserts never touches the sales table. -/
theorem foldInsert_sales (items : List SaleItem) (d : DB) :
    (items.foldl insertItemWithTrigger d).sales = d.sales := by
  induction items generalizing d with
  | nil => rfl
  | cons it its ih => simpa [insertItemWithTrigger] using ih (insertItemWithTrigger d it)

/-- Folding sale-item inserts never touches the customers table. -/
theorem foldInsert_customers (items : List SaleItem) (d : DB) :
    (items.foldl insertItemWithTrigger d).customers = d.customers := by
  induction items generalizing d with
  | nil => rfl
  | cons it its ih => simpa [insertItemWithTrigger] using ih (insertItemWithTrigger d it)

/-- Folding sale-item inserts never touches the ledger. -/
theorem foldInsert_ledger (items : List SaleItem) (d : DB) :
    (items.foldl insertItemWithTrigger d).ledger = d.ledger := by
  induction items generalizing d with
  | nil => rfl
  | cons it its ih => simpa [insertItemWithTrigger] using ih (insertItemWithTrigger d it)

/-- Folding sale-item inserts never touches `nextId`. -/
theorem foldInsert_nextId (items : List SaleItem) (d : DB) :
    (items.foldl insertItemWithTrigger d).nextId = d.nextId := by
  induction items generalizing d with
  | nil => rfl
  | cons it its ih => simpa [insertItemWithTrigger] using ih (insertItemWithTrigger d it)

/-- Folding sale-item inserts appends exactly those items. -/
theorem foldInsert_saleItems (items : List SaleItem) (d : DB) :
    (items.foldl insertItemWithTrigger d).saleItems = d.saleItems ++ items := by
  induction items generalizing d with
  | nil => simp
  | cons it its ih =>
      rw [List.foldl_cons, ih (insertItemWithTrigger d it)]
      simp [insertItemWithTrigger]

/-- Folding the cart's sale-item inserts decrements each product's
stock by the total quantity of that product in the cart. -/
theorem foldInsert_products (cart : List CartItem) (sid : Nat) (d : DB) :
    ((cart.map (saleItemOf sid)).foldl insertItemWithTrigger d).products
      = d.products.map (fun p => { p with stock_qty := p.stock_qty - soldQty cart p.id }) := by
  induction cart generalizing d with
  | nil =>
      simp only [List.map_nil, List.foldl_nil, soldQty, sub_zero]
      exact (List.map_id d.products).symm
  | cons c cs ih =>
      simp only [List.map_cons, List.foldl_cons]
      rw [ih (insertItemWithTrigger d (saleItemOf sid c))]
      simp only [insertItemWithTrigger, deduct_stock_on_sale, saleItemOf, List.map_map]
      apply List.map_congr_left
      intro p _
      by_cases h : p.id = c.product.id
      · simp only [Function.comp, h, beq_self_eq_true, if_true, soldQty]
        simp only [Product.mk.injEq, true_and, and_true]
        omega
      · have hb : (p.id == c.product.id) = false := beq_eq_false_iff_ne.mpr h
        have hb2 : (c.product.id == p.id) = false := beq_eq_false_iff_ne.mpr (Ne.symm h)
        simp only [Function.comp, hb, Bool.false_eq_true, if_false, soldQty, hb2, zero_add]

/-- Two database states with equal components are equal. -/
theorem DB_ext (a b : DB)
    (hp : a.products = b.products) (hc : a.customers = b.customers)
    (hs : a.sales = b.sales) (hi : a.saleItems = b.saleItems)
    (hl : a.ledger = b.ledger) (hn : a.nextId = b.nextId) : a = b := by
  cases a; cases b; simp_all

/-- Fault-free `commitSale`, evaluated: sale appended, items appended,
stock decremented, ledger extended for a resolved credit customer. -/
theorem commitSale_fnone (db : DB) (uid : Nat) (cart : List CartItem)
    (pt : PaymentType) (cash : Int) (c? : Option Nat) :
    commitSale db uid cart pt cash c? Fault.fnone =
      (CheckoutOutcome.completed db.nextId,
       { products := db.products.map
           (fun p => { p with stock_qty := p.stock_qty - soldQty cart p.id })
         customers := db.customers
         sales := db.sales ++ [mkSale db.nextId uid cart pt cash c?]
         saleItems := db.saleItems ++ cart.map (saleItemOf db.nextId)
         ledger := db.ledger ++ ledgerAdditions pt c? db.nextId (subtotalOf cart) uid
         nextId := db.nextId + 1 }) := by
  cases pt <;> cases c? <;>
    simp [commitSale, ledgerAdditions, foldInsert_sales, foldInsert_customers,
      foldInsert_ledger, foldInsert_saleItems, foldInsert_nextId, foldInsert_products] <;>
    (apply DB_ext <;>
      simp [foldInsert_sales, foldInsert_customers, foldInsert_ledger,
        foldInsert_saleItems, foldInsert_nextId, foldInsert_products])

/-- `commitSale` when the sale-items insert fails: the sale header stays
committed, nothing is rolled back, and no item or stock write happens. -/
theorem commitSale_fItems (db : DB) (uid : Nat) (cart : List CartItem)
    (pt : PaymentType) (cash : Int) (c? : Option Nat) :
    commitSale db uid cart pt cash c? Fault.fItems =
      (CheckoutOutcome.itemsInsertFailed,
       { db with sales := db.sales ++ [mkSale db.nextId uid cart pt cash c?]
                 nextId := db.nextId + 1 }) := by
  simp [commitSale]

/-- `commitSale` when the ledger insert fails: the code ignores the
error, so the checkout still reports completion, with no ledger row. -/
theorem commitSale_fLedger (db : DB) (uid : Nat) (cart : List CartItem)
    (pt : PaymentType) (cash : Int) (c? : Option Nat) :
    commitSale db uid cart pt cash c? Fault.fLedger =
      (CheckoutOutcome.completed db.nextId,
       { products := db.products.map
           (fun p => { p with stock_qty := p.stock_qty - soldQty cart p.id })
         customers := db.customers
         sales := db.sales ++ [mkSale db.nextId uid cart pt cash c?]
         saleItems := db.saleItems ++ cart.map (saleItemOf db.nextId)
         ledger := db.ledger
         nextId := db.nextId + 1 }) := by
  cases pt <;>
    simp [commitSale, foldInsert_sales, foldInsert_customers,
      foldInsert_ledger, foldInsert_saleItems, foldInsert_nextId, foldInsert_products] <;>
    (apply DB_ext <;>
      simp [foldInsert_sales, foldInsert_customers, foldInsert_ledger,
        foldInsert_saleItems, foldInsert_nextId, foldInsert_products])

/-- A validated checkout reaches `commitSale` on a database that agrees
with the initial one on every table except (possibly) a freshly created
customer. -/
theorem handleCheckout_eq_commit (db : DB) (uid : Nat) (cart : List CartItem)
    (pt : PaymentType) (cash : Int) (name : String) (ccs : List Customer)
    (fault : Fault)
    (hcart : cart ≠ [])
    (hcash : ¬(pt = PaymentType.cash ∧ cash < subtotalOf cart))
    (hname : ¬(pt = PaymentType.utang ∧ jsTrim name = ""))
    (hfault : fault ≠ Fault.fCustomer) :
    ∃ db1 c?,
      handleCheckout db uid cart pt cash name ccs fault
        = commitSale db1 uid cart pt cash c? fault ∧
      db1.products = db.products ∧ db1.sales = db.sales ∧
      db1.saleItems = db.saleItems ∧ db1.ledger = db.ledger ∧
      db.nextId ≤ db1.nextId := by
  unfold handleCheckout
  rw [if_neg hcart, if_neg hcash, if_neg hname]
  cases pt with
  | cash => exact ⟨db, none, rfl, rfl, rfl, rfl, rfl, Nat.le_refl _⟩
  | utang =>
    cases hfind : ccs.find? (customerNameMatches (jsTrim name)) with
    | some c =>
        refine ⟨db, some c.id, ?_, rfl, rfl, rfl, rfl, Nat.le_refl _⟩
        simp only [hfind]
    | none =>
        refine ⟨{ db with
            customers := db.customers ++
              [{ id := db.nextId, full_name := jsTrim name, owner_user_id := uid }]
            nextId := db.nextId + 1 },
          some db.nextId, ?_, rfl, rfl, rfl, rfl, Nat.le_succ _⟩
        simp only [hfind, if_neg hfault]

/-- The net accumulator is a shift of its zero-based run. -/
theorem netStep_shift (cid : Nat) (s t : Int) (u : LedgerEntry) :
    netStep cid (s + t) u = s + netStep cid t u := by
  simp only [netStep]
  split <;> first
  | (split <;> omega)
  | omega

/-- Folding the net accumulator from `s` equals `s` plus the zero run. -/
theorem foldl_netStep_init (cid : Nat) (l : List LedgerEntry) (s : Int) :
    l.foldl (netStep cid) s = s + l.foldl (netStep cid) 0 := by
  induction l generalizing s with
  | nil => simp
  | cons u us ih =>
      rw [List.foldl_cons, List.foldl_cons, ih (netStep cid s u),
        ih (netStep cid 0 u)]
      have h := netStep_shift cid s 0 u
      rw [add_zero] at h
      omega

/-- The ledger net splits over list append. -/
theorem ledgerNet_append (xs ys : List LedgerEntry) (cid : Nat) :
    ledgerNet (xs ++ ys) cid = ledgerNet xs cid + ledgerNet ys cid := by
  simp only [ledgerNet, List.foldl_append]
  exact foldl_netStep_init cid ys (xs.foldl (netStep cid) 0)

end Lemmas

section Claims

/-- C10: for every principal whose stored product-PIN hash is null —
in particular one who signed up with an empty PIN, for whom
`handle_new_user` stores null instead of a hash — `verify_my_product_pin`
returns false for every submitted PIN, so the product-mutation PIN gate
can never be unlocked for that principal. -/
theorem claim10_null_pin_never_verifies
    (crypt : String → String → String) (salt : String)
    (profiles : List Profile) (uid : Nat) (dname pin : String)
    (hnull : ∀ p ∈ profiles, p.user_id = uid → p.product_pin_hash = none) :
    verify_my_product_pin crypt profiles uid pin = false ∧
    pinGateUnlocks crypt profiles uid pin = false ∧
    (∀ p ∈ handle_new_user crypt salt profiles uid dname "",
        p.user_id = uid → p.product_pin_hash = none) ∧
    verify_my_product_pin crypt (handle_new_user crypt salt profiles uid dname "")
      uid pin = false := by
  have key : ∀ (ps : List Profile),
      (∀ p ∈ ps, p.user_id = uid → p.product_pin_hash = none) →
      verify_my_product_pin crypt ps uid pin = false := by
    intro ps hps
    simp only [verify_my_product_pin, List.any_eq_false]
    intro p hp
    by_cases h : p.user_id = uid
    · rw [hps p hp h]
      simp
    · simp [h]
  have hnew : ∀ p ∈ handle_new_user crypt salt profiles uid dname "",
      p.user_id = uid → p.product_pin_hash = none := by
    intro p hp hu
    simp only [handle_new_user] at hp
    rcases List.mem_append.mp hp with hold | hsing
    · exact hnull p hold hu
    · rcases List.mem_singleton.mp hsing with rfl
      simp
  exact ⟨key profiles hnull, key profiles hnull, hnew,
    key (handle_new_user crypt salt profiles uid dname "") hnew⟩

/-- Witness for C10 at a concrete store: a profile table whose only row
for principal 9 comes from an empty-PIN signup. -/
theorem claim10_witness :
    verify_my_product_pin (fun a b => a ++ b)
      [{ user_id := 3, display_name := "z", product_pin_hash := some "q" }]
      9 "1234" = false ∧
    pinGateUnlocks (fun a b => a ++ b)
      [{ user_id := 3, display_name := "z", product_pin_hash := some "q" }]
      9 "1234" = false ∧
    (∀ p ∈ handle_new_user (fun a b => a ++ b) "ab"
        [{ user_id := 3, display_name := "z", product_pin_hash := some "q" }]
        9 "d" "",
      p.user_id = 9 → p.product_pin_hash = none) ∧
    verify_my_product_pin (fun a b => a ++ b)
      (handle_new_user (fun a b => a ++ b) "ab"
        [{ user_id := 3, display_name := "z", product_pin_hash := some "q" }]
        9 "d" "")
      9 "1234" = false :=
  claim10_null_pin_never_verifies (fun a b => a ++ b) "ab"
    [{ user_id := 3, display_name := "z", product_pin_hash := some "q" }]
    9 "d" "1234" (by decide)

/-- C7: `ensure_my_role` raises for an unauthenticated principal,
returns an existing role assignment unchanged without inserting, and
otherwise inserts and returns admin exactly when no admin assignment
exists system-wide, cashier when one does. -/
theorem claim7_ensure_role_spec (roles : List RoleAssignment) (uid : Nat) :
    ensure_my_role none roles = Except.error "Not authenticated" ∧
    (∀ r, roles.find? (fun x => x.user_id == uid) = some r →
      ensure_my_role (some uid) roles = Except.ok (r.role, roles)) ∧
    (roles.find? (fun x => x.user_id == uid) = none →
      ∃ a, ensure_my_role (some uid) roles
            = Except.ok (a, roles ++ [{ user_id := uid, role := a }]) ∧
        (a = AppRole.admin ↔ ∀ x ∈ roles, x.role ≠ AppRole.admin) ∧
        (a = AppRole.cashier ↔ ∃ x ∈ roles, x.role = AppRole.admin)) := by
  refine ⟨rfl, ?_, ?_⟩
  · intro r h
    simp only [ensure_my_role, h]
  · intro h
    have hnone := List.find?_eq_none.mp h
    have hins : ∀ a : AppRole,
        (roles.any (fun r => r.user_id == uid && r.role == a)) = false := by
      intro a
      rw [List.any_eq_false]
      intro x hx
      have := hnone x hx
      simp only [Bool.and_eq_true, not_and]
      intro hxu
      exact absurd hxu (this)
    cases hadm : roles.any (fun r => r.role == AppRole.admin) with
    | true =>
        have hex : ∃ x ∈ roles, x.role = AppRole.admin := by
          rcases List.any_eq_true.mp hadm with ⟨x, hx, hr⟩
          exact ⟨x, hx, by simpa using hr⟩
        refine ⟨AppRole.cashier, ?_, ?_, ?_⟩
        · simp only [ensure_my_role, h, hadm, if_true, bootstrapInsert,
            hins AppRole.cashier, Bool.false_eq_true, if_false]
        · constructor
          · intro hc
            cases hc
          · intro hall
            rcases hex with ⟨x, hx, hr⟩
            exact absurd hr (hall x hx)
        · exact iff_of_true rfl hex
    | false =>
        have hall : ∀ x ∈ roles, x.role ≠ AppRole.admin := by
          intro x hx
          have := List.any_eq_false.mp hadm x hx
          simpa using this
        refine ⟨AppRole.admin, ?_, iff_of_true rfl hall, ?_⟩
        · simp only [ensure_my_role, h, hadm, Bool.false_eq_true, if_false,
            bootstrapInsert, hins AppRole.admin]
        · constructor
          · intro hc
            cases hc
          · intro hex
            rcases hex with ⟨x, hx, hr⟩
            exact absurd hr (hall x hx)

/-- Witness for C7: on a table already holding an admin, principal 2
(no existing row) is assigned and handed cashier. -/
theorem claim7_witness :
    ensure_my_role none [{ user_id := 1, role := AppRole.admin }]
      = Except.error "Not authenticated" ∧
    (∃ a, ensure_my_role (some 2) [{ user_id := 1, role := AppRole.admin }]
          = Except.ok (a, [{ user_id := 1, role := AppRole.admin }] ++
              [{ user_id := 2, role := a }]) ∧
        (a = AppRole.admin ↔
          ∀ x ∈ ([{ user_id := 1, role := AppRole.admin }] : List RoleAssignment),
            x.role ≠ AppRole.admin) ∧
        (a = AppRole.cashier ↔
          ∃ x ∈ ([{ user_id := 1, role := AppRole.admin }] : List RoleAssignment),
            x.role = AppRole.admin)) :=
  ⟨(claim7_ensure_role_spec [{ user_id := 1, role := AppRole.admin }] 2).1,
   (claim7_ensure_role_spec [{ user_id := 1, role := AppRole.admin }] 2).2.2 rfl⟩

/-- C4: `handlePayment` fails with InvalidAmount when the amount is
non-positive or exceeds the derived balance (max(0, Σcredit − Σpayment)
over the principal's visible entries), inserting nothing; otherwise it
appends exactly one payment entry of that amount and the derived
balance drops by exactly that amount. -/
theorem claim4_record_payment (db : DB) (uid cid : Nat) (amount : Int) :
    (amount ≤ 0 ∨ totalBalance db uid cid < amount →
      handlePayment db uid cid amount = (PaymentOutcome.invalidAmount, db)) ∧
    (0 < amount → amount ≤ totalBalance db uid cid →
      handlePayment db uid cid amount
          = (PaymentOutcome.recorded,
             { db with ledger := db.ledger ++ [mkPaymentEntry cid uid amount] }) ∧
        (mkPaymentEntry cid uid amount).type = LedgerType.payment ∧
        (mkPaymentEntry cid uid amount).amount = amount ∧
        totalBalance { db with ledger := db.ledger ++ [mkPaymentEntry cid uid amount] }
            uid cid
          = totalBalance db uid cid - amount) := by
  constructor
  · intro h
    simp only [handlePayment, if_pos h]
  · intro h1 h2
    have hcond : ¬(amount ≤ 0 ∨ totalBalance db uid cid < amount) := by
      push_neg
      exact ⟨by omega, by omega⟩
    refine ⟨by simp only [handlePayment, if_neg hcond], rfl, rfl, ?_⟩
    have hfilter : ((db.ledger ++ [mkPaymentEntry cid uid amount]).filter
          (fun u => u.owner_user_id == uid))
        = db.ledger.filter (fun u => u.owner_user_id == uid)
            ++ [mkPaymentEntry cid uid amount] := by
      rw [List.filter_append]
      simp [mkPaymentEntry]
    have hsingle : ledgerNet [mkPaymentEntry cid uid amount] cid = -amount := by
      simp [ledgerNet, netStep, mkPaymentEntry]
    simp only [totalBalance] at h2 ⊢
    rw [hfilter, ledgerNet_append, hsingle]
    simp only [jsMax] at h2 ⊢
    split at h2 <;> split <;> omega

/-- Witness for C4: paying ₱50 on a ₱90 balance records one payment and
leaves a ₱40 balance. -/
theorem claim4_witness :
    handlePayment demoPayDB 7 5 50
        = (PaymentOutcome.recorded,
           { demoPayDB with ledger := demoPayDB.ledger ++ [mkPaymentEntry 5 7 50] }) ∧
    (mkPaymentEntry 5 7 50).type = LedgerType.payment ∧
    (mkPaymentEntry 5 7 50).amount = 50 ∧
    totalBalance { demoPayDB with ledger := demoPayDB.ledger ++ [mkPaymentEntry 5 7 50] }
        7 5
      = totalBalance demoPayDB 7 5 - 50 :=
  (claim4_record_payment demoPayDB 7 5 50).2 (by decide) (by decide)

/-- C8 counterexample: interleave two first-time bootstrap calls by
principals 1 and 2 so that both run the admin-existence check on the
empty role table before either inserts (nothing in `ensure_my_role`
serializes the check against the insert, and the unique constraint is
only on `(user_id, role)`): both inserts succeed and both principals
hold admin. -/
theorem claim8_cex :
    bootstrapCheck [] 1 = some AppRole.admin ∧
    bootstrapCheck [] 2 = some AppRole.admin ∧
    bootstrapInsert (bootstrapInsert [] 1 AppRole.admin) 2 AppRole.admin
      = [{ user_id := 1, role := AppRole.admin },
         { user_id := 2, role := AppRole.admin }] ∧
    ((bootstrapInsert (bootstrapInsert [] 1 AppRole.admin) 2 AppRole.admin).filter
        (fun r => r.role == AppRole.admin)).length = 2 := by
  decide

/-- C8 amended: an atomic, non-interleaved `ensure_my_role` call
preserves the at-most-one-admin property, so sequential bootstrap calls
never create a second admin; only the unserialized check/insert
interleaving of two concurrent first-time calls can (see the
counterexample). -/
theorem claim8_sequential_single_admin (uid : Nat)
    (roles : List RoleAssignment) (a : AppRole) (roles' : List RoleAssignment)
    (hinv : (roles.filter (fun r => r.role == AppRole.admin)).length ≤ 1)
    (h : ensure_my_role (some uid) roles = Except.ok (a, roles')) :
    (roles'.filter (fun r => r.role == AppRole.admin)).length ≤ 1 := by
  simp only [ensure_my_role] at h
  cases hfind : roles.find? (fun x => x.user_id == uid) with
  | some r =>
      rw [hfind] at h
      simp only [Except.ok.injEq, Prod.mk.injEq] at h
      obtain ⟨-, hr⟩ := h
      subst hr
      exact hinv
  | none =>
      rw [hfind] at h
      cases hadm : roles.any (fun r => r.role == AppRole.admin) with
      | true =>
          rw [hadm] at h
          simp only [if_true, Except.ok.injEq, Prod.mk.injEq] at h
          obtain ⟨-, hr⟩ := h
          subst hr
          unfold bootstrapInsert
          split
          · exact hinv
          · rw [List.filter_append]
            simpa using hinv
      | false =>
          rw [hadm] at h
          simp only [Bool.false_eq_true, if_false, Except.ok.injEq,
            Prod.mk.injEq] at h
          obtain ⟨-, hr⟩ := h
          subst hr
          have hempty : roles.filter (fun r => r.role == AppRole.admin) = [] := by
            rw [List.filter_eq_nil_iff]
            intro x hx
            exact List.any_eq_false.mp hadm x hx
          unfold bootstrapInsert
          split
          · exact hinv
          · rw [List.filter_append, hempty]
            simp

/-- Witness for C8's amended theorem: principal 2 bootstrapping after
principal 1 already became admin leaves exactly one admin. -/
theorem claim8_witness :
    (([{ user_id := 1, role := AppRole.admin },
       { user_id := 2, role := AppRole.cashier }] : List RoleAssignment).filter
        (fun r => r.role == AppRole.admin)).length ≤ 1 :=
  claim8_sequential_single_admin 2 [{ user_id := 1, role := AppRole.admin }]
    AppRole.cashier
    [{ user_id := 1, role := AppRole.admin }, { user_id := 2, role := AppRole.cashier }]
    (by decide) rfl

/-- C5: a cash checkout is rejected (with no writes) when the cash
received is below the subtotal; otherwise the committed sale records
`total = subtotal = Σ quantity × price` and
`change = cashReceived − subtotal`. -/
theorem claim5_cash_checkout (db : DB) (uid : Nat) (cart : List CartItem)
    (cash : Int) (name : String) (ccs : List Customer)
    (hcart : cart ≠ []) :
    (cash < subtotalOf cart →
      handleCheckout db uid cart PaymentType.cash cash name ccs Fault.fnone
        = (CheckoutOutcome.insufficientCash, db)) ∧
    (subtotalOf cart ≤ cash →
      (handleCheckout db uid cart PaymentType.cash cash name ccs Fault.fnone).1
          = CheckoutOutcome.completed db.nextId ∧
      (handleCheckout db uid cart PaymentType.cash cash name ccs Fault.fnone).2.sales
          = db.sales ++ [mkSale db.nextId uid cart PaymentType.cash cash none] ∧
      (mkSale db.nextId uid cart PaymentType.cash cash none).total = subtotalOf cart ∧
      (mkSale db.nextId uid cart PaymentType.cash cash none).cash_received = some cash ∧
      (mkSale db.nextId uid cart PaymentType.cash cash none).change_amount
          = some (cash - subtotalOf cart)) := by
  constructor
  · intro h
    unfold handleCheckout
    rw [if_neg hcart, if_pos ⟨rfl, h⟩]
  · intro h
    have hcash : ¬(PaymentType.cash = PaymentType.cash ∧ cash < subtotalOf cart) := by
      rintro ⟨-, hlt⟩
      omega
    have hred : handleCheckout db uid cart PaymentType.cash cash name ccs Fault.fnone
        = commitSale db uid cart PaymentType.cash cash none Fault.fnone := by
      unfold handleCheckout
      rw [if_neg hcart, if_neg hcash, if_neg (by rintro ⟨hpt, -⟩; cases hpt)]
    have hmax : jsMax 0 (cash - subtotalOf cart) = cash - subtotalOf cart := by
      simp only [jsMax]
      split <;> omega
    rw [hred, commitSale_fnone]
    refine ⟨rfl, rfl, rfl, rfl, ?_⟩
    simp [mkSale, hmax]

/-- Witness for C5: the spec's worked scenario — cart of two ₱14 items
and one ₱62 item, cash ₱100 — totals ₱90 with ₱10 change. -/
theorem claim5_witness :
    subtotalOf demoCart = 90 ∧
    (handleCheckout demoDB 7 demoCart PaymentType.cash 100 "" [] Fault.fnone).1
        = CheckoutOutcome.completed 1 ∧
    (handleCheckout demoDB 7 demoCart PaymentType.cash 100 "" [] Fault.fnone).2.sales
        = demoDB.sales ++ [mkSale 1 7 demoCart PaymentType.cash 100 none] ∧
    (mkSale 1 7 demoCart PaymentType.cash 100 none).total = 90 ∧
    (mkSale 1 7 demoCart PaymentType.cash 100 none).cash_received = some 100 ∧
    (mkSale 1 7 demoCart PaymentType.cash 100 none).change_amount = some 10 := by
  have h := (claim5_cash_checkout demoDB 7 demoCart 100 "" [] (by decide)).2 (by decide)
  exact ⟨by decide, h.1, h.2.1, by decide, h.2.2.2.1, by decide⟩

/-- C6: a credit checkout with a non-empty name resolves the customer by
case-insensitive trimmed-name match among the principal's own customers,
creates a new customer owned by the principal when no match exists, and
inserts exactly one credit ledger entry for the subtotal referencing the
new sale with `created_by` = the acting principal. -/
theorem claim6_credit_checkout (db : DB) (uid : Nat) (cart : List CartItem)
    (cash : Int) (name : String) (ccs : List Customer)
    (hcart : cart ≠ []) (hname : jsTrim name ≠ "")
    (hccs : ∀ c ∈ ccs, c.owner_user_id = uid) :
    (∀ c, ccs.find? (customerNameMatches (jsTrim name)) = some c →
      (handleCheckout db uid cart PaymentType.utang cash name ccs Fault.fnone).2.customers
          = db.customers ∧
      c.owner_user_id = uid ∧
      (handleCheckout db uid cart PaymentType.utang cash name ccs Fault.fnone).2.ledger
          = db.ledger ++ [mkCreditEntry c.id db.nextId (subtotalOf cart) uid] ∧
      (handleCheckout db uid cart PaymentType.utang cash name ccs Fault.fnone).1
          = CheckoutOutcome.completed db.nextId) ∧
    (ccs.find? (customerNameMatches (jsTrim name)) = none →
      (handleCheckout db uid cart PaymentType.utang cash name ccs Fault.fnone).2.customers
          = db.customers ++
            [{ id := db.nextId, full_name := jsTrim name, owner_user_id := uid }] ∧
      (handleCheckout db uid cart PaymentType.utang cash name ccs Fault.fnone).2.ledger
          = db.ledger ++
            [mkCreditEntry db.nextId (db.nextId + 1) (subtotalOf cart) uid] ∧
      (handleCheckout db uid cart PaymentType.utang cash name ccs Fault.fnone).1
          = CheckoutOutcome.completed (db.nextId + 1)) := by
  have hcash : ¬(PaymentType.utang = PaymentType.cash ∧ cash < subtotalOf cart) := by
    rintro ⟨hpt, -⟩
    cases hpt
  have hname2 : ¬(PaymentType.utang = PaymentType.utang ∧ jsTrim name = "") := by
    rintro ⟨-, he⟩
    exact hname he
  constructor
  · intro c hfind
    have hred : handleCheckout db uid cart PaymentType.utang cash name ccs Fault.fnone
        = commitSale db uid cart PaymentType.utang cash (some c.id) Fault.fnone := by
      unfold handleCheckout
      rw [if_neg hcart, if_neg hcash, if_neg hname2]
      simp only [hfind]
    rw [hred, commitSale_fnone]
    exact ⟨rfl, hccs c (List.mem_of_find?_eq_some hfind), rfl, rfl⟩
  · intro hfind
    have hred : handleCheckout db uid cart PaymentType.utang cash name ccs Fault.fnone
        = commitSale
            { db with
              customers := db.customers ++
                [{ id := db.nextId, full_name := jsTrim name, owner_user_id := uid }]
              nextId := db.nextId + 1 }
            uid cart PaymentType.utang cash (some db.nextId) Fault.fnone := by
      unfold handleCheckout
      rw [if_neg hcart, if_neg hcash, if_neg hname2]
      simp only [hfind, if_neg (by decide : ¬(Fault.fnone = Fault.fCustomer))]
    rw [hred, commitSale_fnone]
    exact ⟨rfl, rfl, rfl⟩

/-- Witness for C6: a credit sale to the previously unknown
"Maria Santos" creates the customer owned by principal 7 and one ₱90
credit ledger entry referencing the sale. -/
theorem claim6_witness :
    (handleCheckout demoDB 7 demoCart PaymentType.utang 0 "Maria Santos" []
        Fault.fnone).2.customers
      = demoDB.customers ++ [{ id := 1, full_name := "Maria Santos", owner_user_id := 7 }] ∧
    (handleCheckout demoDB 7 demoCart PaymentType.utang 0 "Maria Santos" []
        Fault.fnone).2.ledger
      = demoDB.ledger ++ [mkCreditEntry 1 2 (subtotalOf demoCart) 7] ∧
    (handleCheckout demoDB 7 demoCart PaymentType.utang 0 "Maria Santos" []
        Fault.fnone).1
      = CheckoutOutcome.completed 2 ∧
    subtotalOf demoCart = 90 := by
  have h := (claim6_credit_checkout demoDB 7 demoCart 0 "Maria Santos" []
    (by decide) (by decide) (by intro c hc; cases hc)).2 rfl
  exact ⟨h.1, h.2.1, h.2.2, by decide⟩

/-- An accepted RLS product update only rewrites product rows (those
matching the target id and owned by the caller), leaving every other
table unchanged; the statement's check condition must have held. -/
theorem updateProductRLS_some (db : DB) (uid pid : Nat)
    (f : Product → Product) (db' : DB)
    (h : updateProductRLS db uid pid f = some db') :
    db' = { db with products := db.products.map (fun p =>
        if p.id == pid && p.owner_user_id == uid then f p else p) } ∧
    (db.products.filter (fun p => p.id == pid && p.owner_user_id == uid)).all
      (fun p => (f p).owner_user_id == uid) = true := by
  simp only [updateProductRLS] at h
  split at h
  · next hall =>
      simp only [Option.some.injEq] at h
      exact ⟨h.symm, hall⟩
  · cases h

/-- C1 counterexample: on the demo store, a cash checkout whose
sale-items insert fails still leaves the freshly inserted sale header
committed with no line items — the prior write is not rolled back. -/
theorem claim1_cex :
    (handleCheckout demoDB 7 demoCart PaymentType.cash 100 "" [] Fault.fItems).1
      = CheckoutOutcome.itemsInsertFailed ∧
    (handleCheckout demoDB 7 demoCart PaymentType.cash 100 "" [] Fault.fItems).2.sales
      = [mkSale 1 7 demoCart PaymentType.cash 100 none] ∧
    (handleCheckout demoDB 7 demoCart PaymentType.cash 100 "" [] Fault.fItems).2.saleItems
      = [] ∧
    (handleCheckout demoDB 7 demoCart PaymentType.cash 100 "" [] Fault.fItems).2
      ≠ demoDB := by
  decide

/-- C1 amended: checkout is sequential, not transactional. When the
sale-line insert fails, the already-inserted sale header stays
committed with no line items referencing it; when the ledger insert
fails on a credit sale, the checkout still completes with the credit
sale committed and no ledger entry. -/
theorem claim1_no_rollback (db : DB) (uid : Nat) (cart : List CartItem)
    (pt : PaymentType) (cash : Int) (name : String) (ccs : List Customer)
    (hcart : cart ≠ [])
    (hcash : ¬(pt = PaymentType.cash ∧ cash < subtotalOf cart))
    (hname : ¬(pt = PaymentType.utang ∧ jsTrim name = ""))
    (hfresh : ∀ it ∈ db.saleItems, it.sale_id < db.nextId) :
    ((handleCheckout db uid cart pt cash name ccs Fault.fItems).1
        = CheckoutOutcome.itemsInsertFailed ∧
      (handleCheckout db uid cart pt cash name ccs Fault.fItems).2.saleItems
        = db.saleItems ∧
      ∃ s, (handleCheckout db uid cart pt cash name ccs Fault.fItems).2.sales
          = db.sales ++ [s] ∧
        ∀ it ∈ (handleCheckout db uid cart pt cash name ccs Fault.fItems).2.saleItems,
          it.sale_id ≠ s.id) ∧
    (pt = PaymentType.utang →
      ∃ sid, (handleCheckout db uid cart pt cash name ccs Fault.fLedger).1
          = CheckoutOutcome.completed sid ∧
        (handleCheckout db uid cart pt cash name ccs Fault.fLedger).2.ledger
          = db.ledger ∧
        ∃ s, (handleCheckout db uid cart pt cash name ccs Fault.fLedger).2.sales
            = db.sales ++ [s] ∧ s.payment_type = PaymentType.utang) := by
  constructor
  · obtain ⟨db1, c?, heq, hp, hs, hi, hl, hn⟩ :=
      handleCheckout_eq_commit db uid cart pt cash name ccs Fault.fItems
        hcart hcash hname (by decide)
    rw [heq, commitSale_fItems]
    refine ⟨rfl, hi, mkSale db1.nextId uid cart pt cash c?, ?_, ?_⟩
    · show db1.sales ++ [mkSale db1.nextId uid cart pt cash c?]
        = db.sales ++ [mkSale db1.nextId uid cart pt cash c?]
      rw [hs]
    · intro it hit
      have hit2 : it ∈ db1.saleItems := hit
      rw [hi] at hit2
      have := hfresh it hit2
      show it.sale_id ≠ db1.nextId
      omega
  · intro hpt
    subst hpt
    obtain ⟨db1, c?, heq, hp, hs, hi, hl, hn⟩ :=
      handleCheckout_eq_commit db uid cart PaymentType.utang cash name ccs Fault.fLedger
        hcart hcash hname (by decide)
    rw [heq, commitSale_fLedger]
    refine ⟨db1.nextId, rfl, hl, mkSale db1.nextId uid cart PaymentType.utang cash c?, ?_, rfl⟩
    show db1.sales ++ [mkSale db1.nextId uid cart PaymentType.utang cash c?]
      = db.sales ++ [mkSale db1.nextId uid cart PaymentType.utang cash c?]
    rw [hs]

/-- Witness for C1's amended theorem on the demo store. -/
theorem claim1_witness :
    ((handleCheckout demoDB 7 demoCart PaymentType.cash 100 "" [] Fault.fItems).1
        = CheckoutOutcome.itemsInsertFailed ∧
      (handleCheckout demoDB 7 demoCart PaymentType.cash 100 "" [] Fault.fItems).2.saleItems
        = demoDB.saleItems ∧
      ∃ s, (handleCheckout demoDB 7 demoCart PaymentType.cash 100 "" [] Fault.fItems).2.sales
          = demoDB.sales ++ [s] ∧
        ∀ it ∈ (handleCheckout demoDB 7 demoCart PaymentType.cash 100 "" []
            Fault.fItems).2.saleItems,
          it.sale_id ≠ s.id) ∧
    (PaymentType.cash = PaymentType.utang →
      ∃ sid, (handleCheckout demoDB 7 demoCart PaymentType.cash 100 "" [] Fault.fLedger).1
          = CheckoutOutcome.completed sid ∧
        (handleCheckout demoDB 7 demoCart PaymentType.cash 100 "" [] Fault.fLedger).2.ledger
          = demoDB.ledger ∧
        ∃ s, (handleCheckout demoDB 7 demoCart PaymentType.cash 100 "" [] Fault.fLedger).2.sales
            = demoDB.sales ++ [s] ∧ s.payment_type = PaymentType.utang) :=
  claim1_no_rollback demoDB 7 demoCart PaymentType.cash 100 "" []
    (by decide) (by decide) (by decide) (by decide)

/-- C2 counterexample: a checkout asking for two units of a product
with one unit in stock is not rejected — it completes and drives the
stock to −1, so there is no insufficient-stock rejection and stock can
go negative. -/
theorem claim2_cex :
    demoLow.stock_qty = 1 ∧
    (demoLowCart.map fun c => c.quantity) = [2] ∧
    (handleCheckout demoLowDB 7 demoLowCart PaymentType.cash 100 "" [] Fault.fnone).1
      = CheckoutOutcome.completed 1 ∧
    (handleCheckout demoLowDB 7 demoLowCart PaymentType.cash 100 "" [] Fault.fnone).2.products
      = [{ id := 12, name := "L", selling_price := 10,
           stock_qty := -1, owner_user_id := 7 }] := by
  decide

/-- C2 amended: checkout performs no stock check at all — the trigger
decrements unconditionally (stock may go negative) — and after any
successful checkout each product's stock equals its prior stock minus
the quantity sold. -/
theorem claim2_stock_decrement (db : DB) (uid : Nat) (cart : List CartItem)
    (pt : PaymentType) (cash : Int) (name : String) (ccs : List Customer)
    (hcart : cart ≠ [])
    (hcash : ¬(pt = PaymentType.cash ∧ cash < subtotalOf cart))
    (hname : ¬(pt = PaymentType.utang ∧ jsTrim name = "")) :
    ∃ sid, (handleCheckout db uid cart pt cash name ccs Fault.fnone).1
        = CheckoutOutcome.completed sid ∧
      (handleCheckout db uid cart pt cash name ccs Fault.fnone).2.products
        = db.products.map
            (fun p => { p with stock_qty := p.stock_qty - soldQty cart p.id }) := by
  obtain ⟨db1, c?, heq, hp, hs, hi, hl, hn⟩ :=
    handleCheckout_eq_commit db uid cart pt cash name ccs Fault.fnone
      hcart hcash hname (by decide)
  rw [heq, commitSale_fnone]
  refine ⟨db1.nextId, rfl, ?_⟩
  show db1.products.map _ = db.products.map _
  rw [hp]

/-- Witness for C2's amended theorem: the demo checkout leaves stock
3 and 2 (5 − 2 and 3 − 1). -/
theorem claim2_witness :
    (∃ sid, (handleCheckout demoDB 7 demoCart PaymentType.cash 100 "" [] Fault.fnone).1
        = CheckoutOutcome.completed sid ∧
      (handleCheckout demoDB 7 demoCart PaymentType.cash 100 "" [] Fault.fnone).2.products
        = demoDB.products.map
            (fun p => { p with stock_qty := p.stock_qty - soldQty demoCart p.id })) ∧
    demoDB.products.map
        (fun p => { p with stock_qty := p.stock_qty - soldQty demoCart p.id })
      = [{ id := 10, name := "A", selling_price := 14, stock_qty := 3, owner_user_id := 7 },
         { id := 11, name := "B", selling_price := 62, stock_qty := 2, owner_user_id := 7 }] :=
  ⟨claim2_stock_decrement demoDB 7 demoCart PaymentType.cash 100 "" []
      (by decide) (by decide) (by decide),
   by decide⟩

/-- C9: each sale line is a value copy (name, unit price, line total =
quantity × snapshotted price) taken at checkout time, and any later
RLS product update — a name or price edit — leaves the sale lines and
sales of the committed checkout byte-for-byte unchanged. -/
theorem claim9_snapshot (db : DB) (uid : Nat) (cart : List CartItem)
    (pt : PaymentType) (cash : Int) (name : String) (ccs : List Customer)
    (hcart : cart ≠ [])
    (hcash : ¬(pt = PaymentType.cash ∧ cash < subtotalOf cart))
    (hname : ¬(pt = PaymentType.utang ∧ jsTrim name = ""))
    (uid2 pid : Nat) (f : Product → Product) (db2 : DB)
    (hupd : updateProductRLS
        (handleCheckout db uid cart pt cash name ccs Fault.fnone).2 uid2 pid f
      = some db2) :
    ∃ sid, (handleCheckout db uid cart pt cash name ccs Fault.fnone).1
        = CheckoutOutcome.completed sid ∧
      db2.saleItems = db.saleItems ++ cart.map (saleItemOf sid) ∧
      db2.sales = (handleCheckout db uid cart pt cash name ccs Fault.fnone).2.sales ∧
      ∀ c ∈ cart, saleItemOf sid c =
        { sale_id := sid
          product_id := c.product.id
          product_name := c.product.name
          quantity := c.quantity
          price := c.product.selling_price
          total := c.product.selling_price * c.quantity } := by
  obtain ⟨db1, c?, heq, hp, hs, hi, hl, hn⟩ :=
    handleCheckout_eq_commit db uid cart pt cash name ccs Fault.fnone
      hcart hcash hname (by decide)
  obtain ⟨hdb2, -⟩ := updateProductRLS_some _ _ _ _ _ hupd
  subst hdb2
  refine ⟨db1.nextId, ?_, ?_, rfl, fun c _ => rfl⟩
  · rw [heq, commitSale_fnone]
  · show (handleCheckout db uid cart pt cash name ccs Fault.fnone).2.saleItems
      = db.saleItems ++ cart.map (saleItemOf db1.nextId)
    rw [heq, commitSale_fnone]
    show db1.saleItems ++ cart.map (saleItemOf db1.nextId)
      = db.saleItems ++ cart.map (saleItemOf db1.nextId)
    rw [hi]

/-- Witness for C9: after the demo cash checkout and a price edit of
product A to ₱99, the stored sale lines still carry the original ₱14
snapshot. -/
theorem claim9_witness :
    ∃ sid, (handleCheckout demoDB 7 demoCart PaymentType.cash 100 "" [] Fault.fnone).1
        = CheckoutOutcome.completed sid ∧
      demoEditedDB.saleItems = demoDB.saleItems ++ demoCart.map (saleItemOf sid) ∧
      demoEditedDB.sales
        = (handleCheckout demoDB 7 demoCart PaymentType.cash 100 "" [] Fault.fnone).2.sales ∧
      ∀ c ∈ demoCart, saleItemOf sid c =
        { sale_id := sid
          product_id := c.product.id
          product_name := c.product.name
          quantity := c.quantity
          price := c.product.selling_price
          total := c.product.selling_price * c.quantity } :=
  claim9_snapshot demoDB 7 demoCart PaymentType.cash 100 "" []
    (by decide) (by decide) (by decide) 7 10
    (fun p => { p with selling_price := 99 }) demoEditedDB (by decide)

end Claims

end POSSari
